import Mathlib

/-!
Shallow embedding of the sqsc Go package (src/sqsc.go): a thin client over
the SQS service. External service calls (session construction, GetQueueUrl,
SendMessage, ReceiveMessage) are modelled as oracle functions passed in as
parameters; nil pointers become Option, Go errors become Option String
holding the error message, and a nil-pointer dereference is modelled by the
GoResult.crash outcome.
-/

namespace Sqsc

/-- Credential mode selected during construction: either anonymous
(no auth) or static key/secret credentials. -/
inductive Credentials where
  | anonymous : Credentials
  | static (key secret : String) : Credentials
deriving DecidableEq, Repr

/-- Mirror of the Go Config struct (src/sqsc.go lines 19-30). -/
structure Config where
  ID : String
  Key : String
  Secret : String
  Region : String
  Queue : String
  URL : String
  Endpoint : String
  Retries : Int
  Timeout : Int
  Wait : Int
deriving DecidableEq, Repr

/-- Mirror of the aws.Config value built in New (lines 43-48): the fields
the code actually sets. -/
structure AwsConfig where
  Region : String
  Credentials : Credentials
  MaxRetries : Int
  Endpoint : String
deriving DecidableEq, Repr

/-- Model of the sqs service handle built by sqs.New: it records the aws
configuration it was built from. -/
structure SQS where
  config : AwsConfig
deriving DecidableEq, Repr

/-- Mirror of the Go SQSC client struct (lines 13-16). -/
structure SQSC where
  sqs : SQS
  config : Config
deriving DecidableEq, Repr

/-- Input of the GetQueueUrl service call (lines 58-61). -/
structure GetQueueUrlInput where
  QueueName : String
  QueueOwnerAWSAccountId : String
deriving DecidableEq, Repr

/-- Output of the GetQueueUrl service call; QueueUrl is a *string in the
SDK, hence Option. -/
structure GetQueueUrlOutput where
  QueueUrl : Option String
deriving DecidableEq, Repr

/-- Outcome of running a piece of Go code that may dereference a nil
pointer: either a normal return value or a runtime panic (crash). -/
inductive GoResult (α : Type) where
  | ret (val : α) : GoResult α
  | crash : GoResult α
deriving DecidableEq, Repr

/-- Shallow embedding of New (src/sqsc.go lines 33-79).

sessionErr models the error returned by session.NewSession (line 51); the
Go code never checks it and returns it verbatim at line 78. svc models the
GetQueueUrl service operation. The result carries, besides the Go return
value (client pointer, error), the final state of the caller-supplied
config struct (New writes to cfg.URL at line 71) and the list of
GetQueueUrl calls issued. -/
def New (cfg : Config) (sessionErr : Option String)
    (svc : GetQueueUrlInput → Option GetQueueUrlOutput × Option String) :
    GoResult ((Option SQSC × Option String) × Config × List GetQueueUrlInput) :=
  let crd := if cfg.Key ≠ "" ∧ cfg.Secret ≠ "" then
    Credentials.static cfg.Key cfg.Secret else Credentials.anonymous
  let acf : AwsConfig := ⟨cfg.Region, crd, cfg.Retries, cfg.Endpoint⟩
  let err := sessionErr
  let cli : SQS := ⟨acf⟩
  if cfg.URL = "" then
    let inp : GetQueueUrlInput := ⟨cfg.Queue, cfg.ID⟩
    match svc inp with
    | (_, some e) => GoResult.ret ((none, some e), cfg, [inp])
    | (none, none) => GoResult.ret ((none, some "failed to get queue url"), cfg, [inp])
    | (some url, none) =>
      match url.QueueUrl with
      | none => GoResult.crash
      | some u =>
        let cfg2 := { cfg with URL := u }
        GoResult.ret ((some ⟨cli, cfg2⟩, err), cfg2, [inp])
  else
    GoResult.ret ((some ⟨cli, cfg⟩, err), cfg, [])

/-- Input of the SendMessage service call (lines 91-95). -/
structure SendMessageInput where
  MessageBody : String
  QueueUrl : String
  DelaySeconds : Int
deriving DecidableEq, Repr

/-- Output of the SendMessage service call; MessageId is a *string. -/
structure SendMessageOutput where
  MessageId : Option String
deriving DecidableEq, Repr

/-- The SendMessageInput that Produce builds (lines 91-95). -/
def sendInput (c : SQSC) (bod : String) (del : Int) : SendMessageInput :=
  ⟨bod, c.config.URL, del⟩

/-- Shallow embedding of Produce (src/sqsc.go lines 89-117). svc models
the SendMessage service operation. -/
def SQSC.Produce (c : SQSC)
    (svc : SendMessageInput → Option SendMessageOutput × Option String)
    (bod : String) (del : Int) : String × Option String :=
  match svc (sendInput c bod del) with
  | (res, err) =>
    let id := match res with
      | none => ""
      | some r =>
        match r.MessageId with
        | none => ""
        | some i => i
    (id, err)

/-- One message entry of a ReceiveMessage response; Body and ReceiptHandle
are *string in the SDK, hence Option. -/
structure Message where
  Body : Option String
  ReceiptHandle : Option String
deriving DecidableEq, Repr

/-- Input of the ReceiveMessage service call (lines 169-174). -/
structure ReceiveMessageInput where
  QueueUrl : String
  VisibilityTimeout : Int
  WaitTimeSeconds : Int
  MaxNumberOfMessages : Int
deriving DecidableEq, Repr

/-- Output of the ReceiveMessage service call. -/
structure ReceiveMessageOutput where
  Messages : List Message
deriving DecidableEq, Repr

/-- The ReceiveMessageInput that Receive builds (lines 169-174). -/
def receiveInput (c : SQSC) (n : Int) : ReceiveMessageInput :=
  ⟨c.config.URL, c.config.Timeout, c.config.Wait, n⟩

/-- The result-building loop of Receive (src/sqsc.go lines 191-217):
append each message body and receipt handle in order, breaking with an
error as soon as either pointer is nil. The break keeps whatever was
appended before it, including the body appended just before a nil receipt
handle was found. -/
def buildResults : List Message → List String × List String × Option String
  | [] => ([], [], none)
  | msg :: rest =>
    match msg.Body with
    | none => ([], [], some "received nil message body")
    | some b =>
      match msg.ReceiptHandle with
      | none => ([b], [], some "received nil receipt handle")
      | some rh =>
        let p := buildResults rest
        (b :: p.1, rh :: p.2.1, p.2.2)

/-- Shallow embedding of Receive (src/sqsc.go lines 167-221). svc models
the ReceiveMessage service operation. A nil response with nil error is
turned into the synthesized error (line 178); any non-nil error returns
with both slices empty (lines 186-188); otherwise the response messages
are folded by buildResults. -/
def SQSC.Receive (c : SQSC)
    (svc : ReceiveMessageInput → Option ReceiveMessageOutput × Option String)
    (n : Int) : List String × List String × Option String :=
  match svc (receiveInput c n) with
  | (none, none) => ([], [], some "received nil response with no error")
  | (_, some e) => ([], [], some e)
  | (some r, none) => buildResults r.Messages

/-- The post-Receive logic of Consume (src/sqsc.go lines 138-156), reached
only when Receive returned a nil error: the defensive length check and the
unwrapping of the two singleton slices. -/
def consumeCheck (bods rhs : List String) : String × String × Option String :=
  let lb := bods.length
  let lrh := rhs.length
  let err := if lb ≠ lrh then
    some ("body count and receipt handle mismatch: " ++ toString lb ++ " != " ++ toString lrh)
  else none
  (bods.headD "", rhs.headD "", err)

/-- Shallow embedding of Consume (src/sqsc.go lines 125-157): call
Receive(1); on error return empty strings and that error (lines 134-136);
otherwise run the defensive length check and unwrap the first elements. -/
def SQSC.Consume (c : SQSC)
    (svc : ReceiveMessageInput → Option ReceiveMessageOutput × Option String) :
    String × String × Option String :=
  match c.Receive svc 1 with
  | (_, _, some e) => ("", "", some e)
  | (bods, rhs, none) => consumeCheck bods rhs

/-! Helper lemmas shared by several claim theorems. -/

/-- When the result-building loop finishes without error, the two built
lists both have the length of the message list, and position i of each
comes from position i of the messages. -/
theorem buildResults_success (msgs : List Message)
    (h : (buildResults msgs).2.2 = none) :
    (buildResults msgs).1.length = msgs.length ∧
    (buildResults msgs).2.1.length = msgs.length ∧
    ∀ i : Nat, (buildResults msgs).1[i]? = Option.bind msgs[i]? Message.Body ∧
      (buildResults msgs).2.1[i]? = Option.bind msgs[i]? Message.ReceiptHandle := by
  induction msgs with
  | nil => simp [buildResults]
  | cons m rest ih =>
    cases hb : m.Body with
    | none => simp [buildResults, hb] at h
    | some b =>
      cases hr : m.ReceiptHandle with
      | none => simp [buildResults, hb, hr] at h
      | some r =>
        have h2 : (buildResults rest).2.2 = none := by
          simpa [buildResults, hb, hr] using h
        obtain ⟨l1, l2, hal⟩ := ih h2
        refine ⟨?_, ?_, ?_⟩
        · simp [buildResults, hb, hr, l1]
        · simp [buildResults, hb, hr, l2]
        · intro i
          cases i with
          | zero => simp [buildResults, hb, hr]
          | succ j =>
            have := hal j
            simp [buildResults, hb, hr]
            simpa using this

/-- Receive with a nil error returns equal-length lists. -/
theorem receive_length_eq_of_no_error (c : SQSC)
    (svc : ReceiveMessageInput → Option ReceiveMessageOutput × Option String)
    (n : Int) (bods rhs : List String)
    (h : c.Receive svc n = (bods, rhs, none)) : bods.length = rhs.length := by
  rcases hs : svc (receiveInput c n) with ⟨res, err⟩
  cases res with
  | none =>
    cases err with
    | none => simp [SQSC.Receive, hs] at h
    | some e => simp [SQSC.Receive, hs] at h
  | some r =>
    cases err with
    | some e => simp [SQSC.Receive, hs] at h
    | none =>
      have hb : buildResults r.Messages = (bods, rhs, none) := by
        simpa [SQSC.Receive, hs] using h
      have := buildResults_success r.Messages (by simp [hb])
      rw [hb] at this
      simp at this
      omega

/-! Concrete sample values used by witnesses and counterexamples. -/

/-- A sample config carrying an explicit queue URL (no lookup needed). -/
def wCfg : Config := ⟨"acct", "", "", "us-east-1", "q", "http://q", "ep", 0, 30, 5⟩

/-- A sample constructed client over wCfg. -/
def wClient : SQSC := ⟨⟨⟨"us-east-1", Credentials.anonymous, 0, "ep"⟩⟩, wCfg⟩

/-- A receive oracle answering with a nil response and nil error. -/
def nilRespSvc : ReceiveMessageInput → Option ReceiveMessageOutput × Option String :=
  fun _ => (none, none)

/-- A receive oracle answering with a service error. -/
def errRespSvc : ReceiveMessageInput → Option ReceiveMessageOutput × Option String :=
  fun _ => (none, some "service unavailable")

/-- Claim C7: if the underlying receive call returns a null result with no
error, Receive(n) returns the synthesized error "received nil response
with no error"; and whenever the underlying call fails, Receive returns
that error with both result sequences empty. -/
theorem receive_service_error_propagation (c : SQSC)
    (svc : ReceiveMessageInput → Option ReceiveMessageOutput × Option String)
    (n : Int) :
    (svc (receiveInput c n) = (none, none) →
      c.Receive svc n = ([], [], some "received nil response with no error")) ∧
    (∀ res e, svc (receiveInput c n) = (res, some e) →
      c.Receive svc n = ([], [], some e)) := by
  constructor
  · intro h
    simp [SQSC.Receive, h]
  · intro res e h
    cases res <;> simp [SQSC.Receive, h]

/-- Witness for C7: concrete runs of Receive through both error paths. -/
theorem receive_service_error_propagation_witness :
    wClient.Receive nilRespSvc 1 = ([], [], some "received nil response with no error") ∧
    wClient.Receive errRespSvc 1 = ([], [], some "service unavailable") :=
  ⟨(receive_service_error_propagation wClient nilRespSvc 1).1 rfl,
   (receive_service_error_propagation wClient errRespSvc 1).2 none "service unavailable" rfl⟩

/-- A send oracle answering with a message id. -/
def idSendSvc : SendMessageInput → Option SendMessageOutput × Option String :=
  fun _ => (some ⟨some "mid-1"⟩, none)

/-- A send oracle answering with a nil response and an error. -/
def nilSendSvc : SendMessageInput → Option SendMessageOutput × Option String :=
  fun _ => (none, some "send failed")

/-- A send oracle answering with a response that has no message id. -/
def noIdSendSvc : SendMessageInput → Option SendMessageOutput × Option String :=
  fun _ => (some ⟨none⟩, none)

/-- Claim C9: Produce returns the service-assigned message id when the
response contains one, and the empty string with no locally synthesized
error when the response is null or has no id; the underlying call error is
returned alongside in every case. -/
theorem produce_message_id (c : SQSC)
    (svc : SendMessageInput → Option SendMessageOutput × Option String)
    (bod : String) (del : Int) :
    (∀ r i err, svc (sendInput c bod del) = (some r, err) → r.MessageId = some i →
      c.Produce svc bod del = (i, err)) ∧
    (∀ err, svc (sendInput c bod del) = (none, err) →
      c.Produce svc bod del = ("", err)) ∧
    (∀ r err, svc (sendInput c bod del) = (some r, err) → r.MessageId = none →
      c.Produce svc bod del = ("", err)) := by
  refine ⟨?_, ?_, ?_⟩
  · intro r i err h hi
    simp [SQSC.Produce, h, hi]
  · intro err h
    simp [SQSC.Produce, h]
  · intro r err h hi
    simp [SQSC.Produce, h, hi]

/-- Witness for C9: concrete runs of Produce through all three paths. -/
theorem produce_message_id_witness :
    wClient.Produce idSendSvc "hello" 0 = ("mid-1", none) ∧
    wClient.Produce nilSendSvc "hello" 0 = ("", some "send failed") ∧
    wClient.Produce noIdSendSvc "hello" 0 = ("", none) :=
  ⟨(produce_message_id wClient idSendSvc "hello" 0).1 ⟨some "mid-1"⟩ "mid-1" none rfl rfl,
   (produce_message_id wClient nilSendSvc "hello" 0).2.1 (some "send failed") rfl,
   (produce_message_id wClient noIdSendSvc "hello" 0).2.2 ⟨none⟩ none rfl rfl⟩

/-- Claim C3: whenever Receive(n) returns a nil error, the body list and
the receipt-handle list have equal length, and position i of each comes
from position i of the response messages (index alignment). -/
theorem receive_success_aligned (c : SQSC)
    (svc : ReceiveMessageInput → Option ReceiveMessageOutput × Option String)
    (n : Int) (bods rhs : List String)
    (h : c.Receive svc n = (bods, rhs, none)) :
    bods.length = rhs.length ∧
    ∀ r, svc (receiveInput c n) = (some r, none) →
      ∀ i : Nat, bods[i]? = Option.bind r.Messages[i]? Message.Body ∧
        rhs[i]? = Option.bind r.Messages[i]? Message.ReceiptHandle := by
  refine ⟨receive_length_eq_of_no_error c svc n bods rhs h, ?_⟩
  intro r hs i
  have hb : buildResults r.Messages = (bods, rhs, none) := by
    simpa [SQSC.Receive, hs] using h
  have := (buildResults_success r.Messages (by simp [hb])).2.2 i
  rw [hb] at this
  simpa using this

/-- A receive oracle answering with two well-formed messages. -/
def twoMsgSvc : ReceiveMessageInput → Option ReceiveMessageOutput × Option String :=
  fun _ => (some ⟨[⟨some "b1", some "r1"⟩, ⟨some "b2", some "r2"⟩]⟩, none)

/-- Witness for C3: a concrete successful two-message receive is aligned. -/
theorem receive_success_aligned_witness :
    ["b1", "b2"].length = ["r1", "r2"].length ∧
    (["b1", "b2"] : List String)[0]? = some "b1" ∧
    (["r1", "r2"] : List String)[1]? = some "r2" := by
  have h := receive_success_aligned wClient twoMsgSvc 2 ["b1", "b2"] ["r1", "r2"] rfl
  have h0 := (h.2 ⟨[⟨some "b1", some "r1"⟩, ⟨some "b2", some "r2"⟩]⟩ rfl 0).1
  have h1 := (h.2 ⟨[⟨some "b1", some "r1"⟩, ⟨some "b2", some "r2"⟩]⟩ rfl 1).2
  exact ⟨h.1, by simp [h0], by simp [h1]⟩

/-- The loop breaks with "received nil message body" at the first message
whose body is nil, keeping the entries built before it. -/
theorem buildResults_break_nilBody (good : List Message) (bad : Message)
    (rest : List Message)
    (hg : ∀ m ∈ good, m.Body ≠ none ∧ m.ReceiptHandle ≠ none)
    (hb : bad.Body = none) :
    buildResults (good ++ bad :: rest) =
      (good.map (fun m => m.Body.getD ""), good.map (fun m => m.ReceiptHandle.getD ""),
        some "received nil message body") := by
  induction good with
  | nil => simp [buildResults, hb]
  | cons m g ih =>
    obtain ⟨hmb, hmr⟩ := hg m (List.mem_cons_self m g)
    obtain ⟨b, hb2⟩ := Option.ne_none_iff_exists'.mp hmb
    obtain ⟨r, hr2⟩ := Option.ne_none_iff_exists'.mp hmr
    have hrec := ih (fun x hx => hg x (List.mem_cons_of_mem m hx))
    simp [buildResults, hb2, hr2, hrec]

/-- The loop breaks with "received nil receipt handle" at the first message
whose receipt handle is nil, keeping that message's already-appended body
and the entries built before it. -/
theorem buildResults_break_nilRH (good : List Message) (bad : Message)
    (rest : List Message)
    (hg : ∀ m ∈ good, m.Body ≠ none ∧ m.ReceiptHandle ≠ none)
    (b : String) (hb : bad.Body = some b) (hr : bad.ReceiptHandle = none) :
    buildResults (good ++ bad :: rest) =
      (good.map (fun m => m.Body.getD "") ++ [b],
        good.map (fun m => m.ReceiptHandle.getD ""),
        some "received nil receipt handle") := by
  induction good with
  | nil => simp [buildResults, hb, hr]
  | cons m g ih =>
    obtain ⟨hmb, hmr⟩ := hg m (List.mem_cons_self m g)
    obtain ⟨b2, hb2⟩ := Option.ne_none_iff_exists'.mp hmb
    obtain ⟨r2, hr2⟩ := Option.ne_none_iff_exists'.mp hmr
    have hrec := ih (fun x hx => hg x (List.mem_cons_of_mem m hx))
    simp [buildResults, hb2, hr2, hrec]

/-- Claim C1: when the response holds well-formed entries followed by a
malformed one, Receive stops at the malformed entry and returns the
matching explicit error together with exactly the partial lists
accumulated before the break; for a nil receipt handle the entry's body
(appended just before the break) is the last body returned. -/
theorem receive_malformed_fail_fast (c : SQSC)
    (svc : ReceiveMessageInput → Option ReceiveMessageOutput × Option String)
    (n : Int) (good : List Message) (bad : Message) (rest : List Message)
    (r : ReceiveMessageOutput)
    (hsvc : svc (receiveInput c n) = (some r, none))
    (hmsgs : r.Messages = good ++ bad :: rest)
    (hg : ∀ m ∈ good, m.Body ≠ none ∧ m.ReceiptHandle ≠ none) :
    (bad.Body = none →
      c.Receive svc n = (good.map (fun m => m.Body.getD ""),
        good.map (fun m => m.ReceiptHandle.getD ""),
        some "received nil message body")) ∧
    (∀ b, bad.Body = some b → bad.ReceiptHandle = none →
      c.Receive svc n = (good.map (fun m => m.Body.getD "") ++ [b],
        good.map (fun m => m.ReceiptHandle.getD ""),
        some "received nil receipt handle")) := by
  constructor
  · intro hb
    simp [SQSC.Receive, hsvc, hmsgs,
      buildResults_break_nilBody good bad rest hg hb]
  · intro b hb hr
    simp [SQSC.Receive, hsvc, hmsgs,
      buildResults_break_nilRH good bad rest hg b hb hr]

/-- A receive oracle with one good message, then one with a nil body. -/
def nilBodySvc : ReceiveMessageInput → Option ReceiveMessageOutput × Option String :=
  fun _ => (some ⟨[⟨some "b1", some "r1"⟩, ⟨none, some "r2"⟩, ⟨some "b3", some "r3"⟩]⟩, none)

/-- A receive oracle with one good message, then one whose body is present
but whose receipt handle is nil. -/
def nilRHSvc : ReceiveMessageInput → Option ReceiveMessageOutput × Option String :=
  fun _ => (some ⟨[⟨some "b1", some "r1"⟩, ⟨some "b2", none⟩, ⟨some "b3", some "r3"⟩]⟩, none)

/-- Witness for C1: concrete malformed batches hit both break paths. -/
theorem receive_malformed_fail_fast_witness :
    wClient.Receive nilBodySvc 3 = (["b1"], ["r1"], some "received nil message body") ∧
    wClient.Receive nilRHSvc 3 = (["b1", "b2"], ["r1"], some "received nil receipt handle") := by
  constructor
  · have h := (receive_malformed_fail_fast wClient nilBodySvc 3
      [⟨some "b1", some "r1"⟩] ⟨none, some "r2"⟩ [⟨some "b3", some "r3"⟩]
      ⟨[⟨some "b1", some "r1"⟩, ⟨none, some "r2"⟩, ⟨some "b3", some "r3"⟩]⟩
      rfl rfl (by decide)).1 rfl
    simpa using h
  · have h := (receive_malformed_fail_fast wClient nilRHSvc 3
      [⟨some "b1", some "r1"⟩] ⟨some "b2", none⟩ [⟨some "b3", some "r3"⟩]
      ⟨[⟨some "b1", some "r1"⟩, ⟨some "b2", none⟩, ⟨some "b3", some "r3"⟩]⟩
      rfl rfl (by decide)).2 "b2" rfl rfl
    simpa using h

/-- Claim C2 (amended): Consume() equals Receive(1) followed by unwrapping
the first element of each list (or the empty string when a list is empty)
whenever Receive(1) returns a nil error; when Receive(1) returns an error,
Consume returns that error with empty body and empty receipt handle,
regardless of any non-empty partial lists. -/
theorem consume_eq_receive_unwrap (c : SQSC)
    (svc : ReceiveMessageInput → Option ReceiveMessageOutput × Option String) :
    c.Consume svc =
      (match c.Receive svc 1 with
        | (_, _, some e) => ("", "", some e)
        | (bods, rhs, none) => (bods.headD "", rhs.headD "", none)) := by
  rcases hrec : c.Receive svc 1 with ⟨bods, rhs, err⟩
  cases err with
  | some e => simp [SQSC.Consume, hrec]
  | none =>
    have hlen := receive_length_eq_of_no_error c svc 1 bods rhs hrec
    simp [SQSC.Consume, hrec, consumeCheck, hlen]

/-- A receive oracle answering with a single message whose body is present
but whose receipt handle is nil: Receive(1) then yields a non-empty body
list together with an error. -/
def oneBadRHSvc : ReceiveMessageInput → Option ReceiveMessageOutput × Option String :=
  fun _ => (some ⟨[⟨some "b1", none⟩]⟩, none)

/-- Counterexample for C2 as stated: here Receive(1) returns the error
together with the non-empty partial body list ["b1"], yet Consume returns
an empty body rather than the first element "b1" of that list. -/
theorem consume_receive_equiv_cex :
    wClient.Receive oneBadRHSvc 1 = (["b1"], [], some "received nil receipt handle") ∧
    wClient.Consume oneBadRHSvc = ("", "", some "received nil receipt handle") ∧
    wClient.Consume oneBadRHSvc ≠ ("b1", "", some "received nil receipt handle") := by
  refine ⟨rfl, rfl, ?_⟩
  decide

/-- Claim C8: Consume propagates any Receive(1) error unchanged, before
the length check; the mismatch branch produces the explicit message
"body count and receipt handle mismatch: X != Y" exactly when the lengths
differ with no prior error; and through the real Receive that branch is
unreachable, since a nil Receive error forces equal lengths. -/
theorem consume_error_precedence_and_mismatch (c : SQSC)
    (svc : ReceiveMessageInput → Option ReceiveMessageOutput × Option String) :
    (∀ bods rhs e, c.Receive svc 1 = (bods, rhs, some e) →
      c.Consume svc = ("", "", some e)) ∧
    (∀ bods rhs : List String, bods.length ≠ rhs.length →
      consumeCheck bods rhs = (bods.headD "", rhs.headD "",
        some ("body count and receipt handle mismatch: " ++
          toString bods.length ++ " != " ++ toString rhs.length))) ∧
    (∀ bods rhs, c.Receive svc 1 = (bods, rhs, none) →
      (c.Consume svc).2.2 = none) := by
  refine ⟨?_, ?_, ?_⟩
  · intro bods rhs e h
    simp [SQSC.Consume, h]
  · intro bods rhs h
    simp [consumeCheck, h]
  · intro bods rhs h
    have hlen := receive_length_eq_of_no_error c svc 1 bods rhs h
    simp [SQSC.Consume, h, consumeCheck, hlen]

/-- Witness for C8: the error path, the mismatch check on concrete lists
of different lengths, and a concrete error-free Consume. -/
theorem consume_error_precedence_and_mismatch_witness :
    wClient.Consume oneBadRHSvc = ("", "", some "received nil receipt handle") ∧
    consumeCheck ["b1", "b2"] ["r1"] =
      ("b1", "r1", some "body count and receipt handle mismatch: 2 != 1") ∧
    (wClient.Consume twoMsgSvc).2.2 = none := by
  refine ⟨?_, ?_, ?_⟩
  · exact (consume_error_precedence_and_mismatch wClient oneBadRHSvc).1
      ["b1"] [] "received nil receipt handle" rfl
  · have h := (consume_error_precedence_and_mismatch wClient oneBadRHSvc).2.1
      ["b1", "b2"] ["r1"] (by decide)
    simpa using h
  · exact (consume_error_precedence_and_mismatch wClient twoMsgSvc).2.2
      ["b1", "b2"] ["r1", "r2"] rfl

/-- A sample config with no queue URL, forcing the lookup path in New. -/
def lookupCfg : Config := ⟨"acct", "", "", "us-east-1", "q", "", "ep", 0, 30, 5⟩

/-- A lookup oracle failing with an error. -/
def errLookupSvc : GetQueueUrlInput → Option GetQueueUrlOutput × Option String :=
  fun _ => (none, some "lookup failed")

/-- A lookup oracle answering with a nil output and nil error. -/
def nilLookupSvc : GetQueueUrlInput → Option GetQueueUrlOutput × Option String :=
  fun _ => (none, none)

/-- A lookup oracle answering with an output whose QueueUrl field is nil. -/
def emptyOutLookupSvc : GetQueueUrlInput → Option GetQueueUrlOutput × Option String :=
  fun _ => (some ⟨none⟩, none)

/-- A lookup oracle resolving the queue to a concrete URL. -/
def okLookupSvc : GetQueueUrlInput → Option GetQueueUrlOutput × Option String :=
  fun _ => (some ⟨some "http://resolved"⟩, none)

/-- Counterexample for C4 as stated: on a lookup answer that is non-nil
but empty (its QueueUrl field is nil), New does not fail with the error
"failed to get queue url" — it dereferences the nil field and crashes. -/
theorem new_empty_result_cex :
    New lookupCfg none emptyOutLookupSvc = GoResult.crash ∧
    New lookupCfg none emptyOutLookupSvc ≠
      GoResult.ret ((none, some "failed to get queue url"), lookupCfg, [⟨"q", "acct"⟩]) := by
  refine ⟨rfl, ?_⟩
  decide

/-- Claim C4 (amended): with an empty queue URL, New issues exactly one
lookup call carrying the queue name and owner account id; a lookup error
fails construction with that error and no client; a nil lookup result
fails construction with "failed to get queue url" and no client; a
present result with a URL succeeds, storing that URL as the client's
queue URL; and a present result whose URL field is nil crashes on a nil
dereference. -/
theorem new_lookup_behavior (cfg : Config) (se : Option String)
    (svc : GetQueueUrlInput → Option GetQueueUrlOutput × Option String)
    (hurl : cfg.URL = "") :
    (∀ res e, svc ⟨cfg.Queue, cfg.ID⟩ = (res, some e) →
      New cfg se svc = GoResult.ret ((none, some e), cfg, [⟨cfg.Queue, cfg.ID⟩])) ∧
    (svc ⟨cfg.Queue, cfg.ID⟩ = (none, none) →
      New cfg se svc =
        GoResult.ret ((none, some "failed to get queue url"), cfg, [⟨cfg.Queue, cfg.ID⟩])) ∧
    (∀ out u, svc ⟨cfg.Queue, cfg.ID⟩ = (some out, none) → out.QueueUrl = some u →
      ∃ cli : SQSC, New cfg se svc =
        GoResult.ret ((some cli, se), { cfg with URL := u }, [⟨cfg.Queue, cfg.ID⟩]) ∧
        cli.config.URL = u) ∧
    (∀ out, svc ⟨cfg.Queue, cfg.ID⟩ = (some out, none) → out.QueueUrl = none →
      New cfg se svc = GoResult.crash) := by
  refine ⟨?_, ?_, ?_, ?_⟩
  · intro res e h
    cases res <;> simp [New, hurl, h]
  · intro h
    simp [New, hurl, h]
  · intro out u h hq
    refine ⟨⟨⟨⟨cfg.Region,
      if cfg.Key ≠ "" ∧ cfg.Secret ≠ "" then Credentials.static cfg.Key cfg.Secret
      else Credentials.anonymous, cfg.Retries, cfg.Endpoint⟩⟩,
      { cfg with URL := u }⟩, ?_, rfl⟩
    simp [New, hurl, h, hq]
  · intro out h hq
    simp [New, hurl, h, hq]

/-- Witness for C4 (amended): all four lookup outcomes on concrete data. -/
theorem new_lookup_behavior_witness :
    New lookupCfg none errLookupSvc =
      GoResult.ret ((none, some "lookup failed"), lookupCfg, [⟨"q", "acct"⟩]) ∧
    New lookupCfg none nilLookupSvc =
      GoResult.ret ((none, some "failed to get queue url"), lookupCfg, [⟨"q", "acct"⟩]) ∧
    (∃ cli : SQSC, New lookupCfg none okLookupSvc =
      GoResult.ret ((some cli, none), { lookupCfg with URL := "http://resolved" },
        [⟨"q", "acct"⟩]) ∧ cli.config.URL = "http://resolved") ∧
    New lookupCfg none emptyOutLookupSvc = GoResult.crash := by
  refine ⟨?_, ?_, ?_, ?_⟩
  · exact (new_lookup_behavior lookupCfg none errLookupSvc rfl).1 none "lookup failed" rfl
  · exact (new_lookup_behavior lookupCfg none nilLookupSvc rfl).2.1 rfl
  · exact (new_lookup_behavior lookupCfg none okLookupSvc rfl).2.2.1
      ⟨some "http://resolved"⟩ "http://resolved" rfl rfl
  · exact (new_lookup_behavior lookupCfg none emptyOutLookupSvc rfl).2.2.2 ⟨none⟩ rfl rfl

/-- A sample config with an explicit URL whose session construction is
made to fail. -/
def sessionFailCfg : Config := ⟨"acct", "", "", "us-east-1", "q", "http://q", "ep", 2, 30, 5⟩

/-- Claim C5 (code bug evaluation): when session construction fails, New
still returns a non-nil client together with the non-nil session error —
the Go code never checks the error from session.NewSession (line 51) and
returns it verbatim next to the constructed struct (line 78). -/
theorem new_session_error_returns_client :
    New sessionFailCfg (some "session construction failed") errLookupSvc =
      GoResult.ret
        ((some ⟨⟨⟨"us-east-1", Credentials.anonymous, 2, "ep"⟩⟩, sessionFailCfg⟩,
          some "session construction failed"), sessionFailCfg, []) := by
  decide

/-- Any client returned by New carries the sqs handle built from the aws
config of lines 43-48: region, the selected credentials, the retry count
and the endpoint, all taken from the input config. -/
theorem new_client_shape (cfg : Config) (se : Option String)
    (svc : GetQueueUrlInput → Option GetQueueUrlOutput × Option String)
    (cli : SQSC) (err : Option String) (cfg2 : Config)
    (calls : List GetQueueUrlInput)
    (h : New cfg se svc = GoResult.ret ((some cli, err), cfg2, calls)) :
    cli.sqs = ⟨⟨cfg.Region,
      if cfg.Key ≠ "" ∧ cfg.Secret ≠ "" then Credentials.static cfg.Key cfg.Secret
      else Credentials.anonymous, cfg.Retries, cfg.Endpoint⟩⟩ ∧
    err = se := by
  by_cases hurl : cfg.URL = ""
  · rcases hs : svc ⟨cfg.Queue, cfg.ID⟩ with ⟨res, e⟩
    cases res with
    | none =>
      cases e with
      | none => simp [New, hurl, hs] at h
      | some x => simp [New, hurl, hs] at h
    | some out =>
      cases e with
      | some x => simp [New, hurl, hs] at h
      | none =>
        cases hq : out.QueueUrl with
        | none => simp [New, hurl, hs, hq] at h
        | some u =>
          have hval : New cfg se svc = GoResult.ret
              ((some ⟨⟨⟨cfg.Region,
                if cfg.Key ≠ "" ∧ cfg.Secret ≠ "" then
                  Credentials.static cfg.Key cfg.Secret
                else Credentials.anonymous, cfg.Retries, cfg.Endpoint⟩⟩,
                { cfg with URL := u }⟩, se),
                { cfg with URL := u }, [⟨cfg.Queue, cfg.ID⟩]) := by
            simp [New, hurl, hs, hq]
          rw [hval] at h
          injection h with h1
          have hc := congrArg (fun p => p.1.1) h1
          have he := congrArg (fun p => p.1.2) h1
          simp only at hc he
          injection hc with hc2
          exact ⟨by rw [← hc2], he.symm⟩
  · have hval : New cfg se svc = GoResult.ret
        ((some ⟨⟨⟨cfg.Region,
          if cfg.Key ≠ "" ∧ cfg.Secret ≠ "" then
            Credentials.static cfg.Key cfg.Secret
          else Credentials.anonymous, cfg.Retries, cfg.Endpoint⟩⟩, cfg⟩, se),
          cfg, []) := by
      simp [New, hurl]
    rw [hval] at h
    injection h with h1
    have hc := congrArg (fun p => p.1.1) h1
    have he := congrArg (fun p => p.1.2) h1
    simp only at hc he
    injection hc with hc2
    exact ⟨by rw [← hc2], he.symm⟩

/-- Claim C6: every client New returns holds static credentials built
from the config's key and secret exactly when both are non-empty, and
anonymous credentials otherwise; in the mixed case (exactly one of the
two empty) construction with a supplied URL still succeeds, anonymously. -/
theorem new_credentials_selection (cfg : Config) (se : Option String)
    (svc : GetQueueUrlInput → Option GetQueueUrlOutput × Option String) :
    (∀ cli err cfg2 calls,
      New cfg se svc = GoResult.ret ((some cli, err), cfg2, calls) →
      cli.sqs.config.Credentials =
        (if cfg.Key ≠ "" ∧ cfg.Secret ≠ "" then Credentials.static cfg.Key cfg.Secret
          else Credentials.anonymous)) ∧
    ((cfg.Key = "" ∨ cfg.Secret = "") → cfg.URL ≠ "" →
      ∃ cli, New cfg none svc = GoResult.ret ((some cli, none), cfg, []) ∧
        cli.sqs.config.Credentials = Credentials.anonymous) := by
  constructor
  · intro cli err cfg2 calls h
    have := (new_client_shape cfg se svc cli err cfg2 calls h).1
    rw [this]
  · intro hmix hurl
    have hanon : (if cfg.Key ≠ "" ∧ cfg.Secret ≠ "" then
        Credentials.static cfg.Key cfg.Secret else Credentials.anonymous) =
        Credentials.anonymous := by
      rcases hmix with hk | hk <;> simp [hk]
    refine ⟨⟨⟨⟨cfg.Region,
      if cfg.Key ≠ "" ∧ cfg.Secret ≠ "" then Credentials.static cfg.Key cfg.Secret
      else Credentials.anonymous, cfg.Retries, cfg.Endpoint⟩⟩, cfg⟩, ?_, hanon⟩
    simp [New, hurl]

/-- A sample config with both key and secret supplied. -/
def staticCfg : Config := ⟨"acct", "K", "S", "us-east-1", "q", "http://q", "ep", 0, 30, 5⟩

/-- The client New builds from staticCfg. -/
def staticCli : SQSC :=
  ⟨⟨⟨"us-east-1", Credentials.static "K" "S", 0, "ep"⟩⟩, staticCfg⟩

/-- A sample config with a key but no secret (the mixed case). -/
def mixedCfg : Config := ⟨"acct", "K", "", "us-east-1", "q", "http://q", "ep", 0, 30, 5⟩

/-- Witness for C6: both-non-empty yields static credentials; the mixed
case constructs anonymously with no error. -/
theorem new_credentials_selection_witness :
    staticCli.sqs.config.Credentials = Credentials.static "K" "S" ∧
    (∃ cli, New mixedCfg none errLookupSvc = GoResult.ret ((some cli, none), mixedCfg, []) ∧
      cli.sqs.config.Credentials = Credentials.anonymous) := by
  constructor
  · have h := (new_credentials_selection staticCfg none errLookupSvc).1
      staticCli none staticCfg [] (by decide)
    simpa using h
  · exact (new_credentials_selection mixedCfg none errLookupSvc).2
      (Or.inr rfl) (by decide)

/-- Claim C10: when the caller's config has an empty URL and New succeeds,
the config struct handed back to the caller is the input config with only
its URL field rewritten, that URL is exactly the one the lookup resolved,
and the client stores its own copy of that resulting config. (In the
embedding, the in-place write to the caller's struct at line 71 is
modelled by New returning the final state of the config.) -/
theorem new_mutates_caller_config (cfg : Config) (se : Option String)
    (svc : GetQueueUrlInput → Option GetQueueUrlOutput × Option String)
    (cli : SQSC) (err : Option String) (cfg2 : Config)
    (calls : List GetQueueUrlInput)
    (hurl : cfg.URL = "")
    (h : New cfg se svc = GoResult.ret ((some cli, err), cfg2, calls)) :
    cfg2 = { cfg with URL := cfg2.URL } ∧
    cli.config = cfg2 ∧
    Option.bind (svc ⟨cfg.Queue, cfg.ID⟩).1 GetQueueUrlOutput.QueueUrl = some cfg2.URL := by
  rcases hs : svc ⟨cfg.Queue, cfg.ID⟩ with ⟨res, e⟩
  cases res with
  | none =>
    cases e with
    | none => simp [New, hurl, hs] at h
    | some x => simp [New, hurl, hs] at h
  | some out =>
    cases e with
    | some x => simp [New, hurl, hs] at h
    | none =>
      cases hq : out.QueueUrl with
      | none => simp [New, hurl, hs, hq] at h
      | some u =>
        have hval : New cfg se svc = GoResult.ret
            ((some ⟨⟨⟨cfg.Region,
              if cfg.Key ≠ "" ∧ cfg.Secret ≠ "" then
                Credentials.static cfg.Key cfg.Secret
              else Credentials.anonymous, cfg.Retries, cfg.Endpoint⟩⟩,
              { cfg with URL := u }⟩, se),
              { cfg with URL := u }, [⟨cfg.Queue, cfg.ID⟩]) := by
          simp [New, hurl, hs, hq]
        rw [hval] at h
        injection h with h1
        have hcfg2 := congrArg (fun p => p.2.1) h1
        have hcli := congrArg (fun p => p.1.1) h1
        simp only at hcfg2 hcli
        injection hcli with hcli2
        refine ⟨?_, ?_, ?_⟩
        · rw [← hcfg2]
        · rw [← hcli2, ← hcfg2]
        · rw [← hcfg2]
          simp [hq]

/-- Witness for C10: a concrete successful lookup construction returns
the input config with only its URL rewritten to the resolved URL, stored
in the client as well. -/
theorem new_mutates_caller_config_witness :
    ({ lookupCfg with URL := "http://resolved" } : Config) =
      { lookupCfg with URL := ({ lookupCfg with URL := "http://resolved" } : Config).URL } ∧
    (⟨⟨⟨"us-east-1", Credentials.anonymous, 0, "ep"⟩⟩,
      { lookupCfg with URL := "http://resolved" }⟩ : SQSC).config =
      { lookupCfg with URL := "http://resolved" } ∧
    Option.bind (okLookupSvc ⟨"q", "acct"⟩).1 GetQueueUrlOutput.QueueUrl =
      some ({ lookupCfg with URL := "http://resolved" } : Config).URL := by
  exact new_mutates_caller_config lookupCfg none okLookupSvc
    ⟨⟨⟨"us-east-1", Credentials.anonymous, 0, "ep"⟩⟩,
      { lookupCfg with URL := "http://resolved" }⟩
    none { lookupCfg with URL := "http://resolved" } [⟨"q", "acct"⟩] rfl (by decide)

end Sqsc
